import Mathlib

/-!
A verification development for the fconcat core: shallow embeddings of the
filter engine (src/filter/*.c), the format engine (src/format/*.c), the
memory manager (src/core/memory.c) and the iterative directory traversal
(src/core/context.c), together with theorems settling the specification
claims about them.

Conventions of the embedding:
* C strings are Lean `String`s; byte buffers are `String`s whose characters
  are the bytes (a NUL byte is `Char.ofNat 0`).  Fixed C buffer sizes
  (`MAX_PATH` truncation, the 1024-byte `snprintf` scratch in
  `exclude_match_path`) are not modelled, matching inputs that fit.
* libc `fnmatch(pattern, string, 0)` is modelled for the `*`/`?`/literal
  subset actually used by the program; `[...]` bracket classes are not
  modelled.
* External effects (realpath, readlink) are supplied through an explicit
  environment record so that the code's use of them stays visible.
-/

namespace Fconcat

/-! ## Core types (src/core/types.h) -/

inductive BinaryHandling
  | BINARY_SKIP
  | BINARY_INCLUDE
  | BINARY_PLACEHOLDER
deriving DecidableEq, Repr

inductive SymlinkHandling
  | SYMLINK_SKIP
  | SYMLINK_FOLLOW
  | SYMLINK_INCLUDE
  | SYMLINK_PLACEHOLDER
deriving DecidableEq, Repr

/-- FileInfo (src/core/types.h).  The `path` field is carried separately by
the functions that receive it, so it is omitted here. -/
structure FileInfo where
  size : Nat
  modified_time : Int
  is_directory : Bool
  is_symlink : Bool
  is_binary : Bool
  permissions : Nat
deriving DecidableEq, Repr

/-- A plain regular-file FileInfo used by concrete test inputs. -/
def plainFileInfo : FileInfo :=
  { size := 10, modified_time := 0, is_directory := false, is_symlink := false,
    is_binary := false, permissions := 420 }

def dirFileInfo : FileInfo :=
  { plainFileInfo with is_directory := true }

/-- ResolvedConfig (src/core/types.h), restricted to the fields the filter
and format engines read. -/
structure ResolvedConfig where
  binary_handling : BinaryHandling
  symlink_handling : SymlinkHandling
  output_format : String
  input_directory : String
  output_file : String
  exclude_patterns : List String
  include_patterns : List String
deriving Repr

/-- Environment for the external calls made by the filter engine:
`absPath` models `realpath` with its `strdup` fallback (filter.c
`get_absolute_path_util`), `readlink` models the `readlink` syscall used by
`symlink_transform` (already truncated to the 2047-byte buffer). -/
structure FilterEnv where
  absPath : String → String
  readlink : String → Option String

/-! ## fnmatch model (libc, as called with flags 0 / FNM_CASEFOLD) -/

/-- Glob matching for the `*`/`?`/literal subset of `fnmatch`, with
explicit fuel so that it is structurally recursive (every recursive call
shrinks `pattern.length + s.length`, so the fuel used by `fnmatchList`
never runs out). -/
def fnmatchAux : Nat → List Char → List Char → Bool
  | 0, _, _ => false
  | fuel + 1, pattern, s =>
    match pattern, s with
    | [], [] => true
    | '*' :: ps, [] => fnmatchAux fuel ps []
    | _ :: _, [] => false
    | [], _ :: _ => false
    | '*' :: ps, c :: cs =>
      fnmatchAux fuel ps (c :: cs) || fnmatchAux fuel ('*' :: ps) cs
    | '?' :: ps, _ :: cs => fnmatchAux fuel ps cs
    | p :: ps, c :: cs => p == c && fnmatchAux fuel ps cs

def fnmatchList (pattern s : List Char) : Bool :=
  fnmatchAux (pattern.length + s.length + 1) pattern s

def fnmatch (pattern s : String) : Bool :=
  fnmatchList pattern.toList s.toList

/-- ASCII `tolower`, as applied bytewise by `str_to_lower`
(filter_exclude.c / filter_include.c). -/
def asciiToLower (c : Char) : Char :=
  if 'A' ≤ c ∧ c ≤ 'Z' then Char.ofNat (c.toNat + 32) else c

def str_to_lower (s : String) : String :=
  String.mk (s.toList.map asciiToLower)

/-- `match_pattern_enhanced` (filter_exclude.c / filter_include.c): empty
patterns never match; otherwise case-sensitive `fnmatch`, then
case-insensitive (the FNM_CASEFOLD branch on Linux). -/
def match_pattern_enhanced (pattern s : String) : Bool :=
  if pattern.length = 0 then false
  else fnmatch pattern s || fnmatch (str_to_lower pattern) (str_to_lower s)

/-- `get_basename` (filter_exclude.c / filter_include.c): the suffix after
the last `/` or `\`. -/
def get_basename (path : String) : String :=
  String.mk (path.toList.foldl
    (fun acc c => if c = '/' ∨ c = '\\' then [] else acc ++ [c]) [])

/-- `get_filename_util` (filter.c): the suffix after the last `/`
(PATH_SEP on non-Windows). -/
def get_filename_util (path : String) : String :=
  String.mk (path.toList.foldl
    (fun acc c => if c = '/' then [] else acc ++ [c]) [])

/-- `get_absolute_path_util` (filter.c): realpath, falling back to
duplicating the path; both are supplied by the environment's `absPath`. -/
def get_absolute_path_util (env : FilterEnv) (path : String) : String :=
  env.absPath path

/-- `strncmp(s, p, strlen(p)) == 0`: `p` is a byte prefix of `s`
(list-level so that proofs can evaluate it). -/
def strIsPrefixOf (p s : String) : Bool :=
  p.toList.isPrefixOf s.toList

/-- Pointer-offset suffix `s + n` (list-level `String.drop`). -/
def strDrop (s : String) (n : Nat) : String :=
  String.mk (s.toList.drop n)

/-- Append a trailing separator if one is missing (the normalization step
in `get_relative_path_util` and `add_output_file_exclusion`). -/
def ensureTrailingSep (s : String) : String :=
  if s.length > 0 ∧ s.toList.getLast? ≠ some '/' then s ++ "/" else s

/-- `get_relative_path_util` (filter.c). -/
def get_relative_path_util (env : FilterEnv) (base_dir target_path : String) :
    Option String :=
  let abs_base := ensureTrailingSep (get_absolute_path_util env base_dir)
  let abs_target := get_absolute_path_util env target_path
  if strIsPrefixOf abs_base abs_target then
    some (strDrop abs_target abs_base.length)
  else
    none

/-! ## Filter rules (src/filter/filter.h, filter.c) -/

inductive FilterType
  | FILTER_TYPE_INCLUDE
  | FILTER_TYPE_EXCLUDE
  | FILTER_TYPE_TRANSFORM
deriving DecidableEq, Repr

open FilterType BinaryHandling SymlinkHandling

/-- FilterRule.  The C rule's function pointers plus their opaque context
are modelled as Lean closures; `transform` returns `none` where the C
function returns non-zero or a null output (decline). -/
structure FilterRule where
  type : FilterType
  priority : Int
  match_path : Option (String → Option FileInfo → Bool)
  match_content : Option (String → String → Bool)
  transform : Option (String → String → Option String)

/-- `exclude_match_path` (filter_exclude.c) with its ExcludeContext pattern
list baked in: any pattern matching the full path, the basename, or (for
directories) `pattern/*` against the path excludes. -/
def exclude_match_path (patterns : List String) (path : String)
    (info : Option FileInfo) : Bool :=
  let basename := get_basename path
  patterns.any fun pat =>
    match_pattern_enhanced pat path ||
    match_pattern_enhanced pat basename ||
    (match info with
     | some i => i.is_directory && match_pattern_enhanced (pat ++ "/*") path
     | none => false)

/-- `include_match_path` (filter_include.c): directories are always
included (both branches of the directory case return 1); files must match
some pattern against basename, full path, or the path with a leading
`src/` stripped. -/
def include_match_path (patterns : List String) (path : String)
    (info : Option FileInfo) : Bool :=
  match info with
  | some i =>
    if i.is_directory then true
    else
      patterns.any fun pat =>
        match_pattern_enhanced pat (get_basename path) ||
        match_pattern_enhanced pat path ||
        (strIsPrefixOf "src/" path && match_pattern_enhanced pat (strDrop path 4))
  | none =>
    patterns.any fun pat =>
      match_pattern_enhanced pat (get_basename path) ||
      match_pattern_enhanced pat path ||
      (strIsPrefixOf "src/" path && match_pattern_enhanced pat (strDrop path 4))

/-- Pattern normalization in `create_exclude_context` /
`create_include_context`: strip trailing then leading spaces and tabs. -/
def trimPattern (s : String) : String :=
  let dropTrailing := (s.toList.reverse.dropWhile (fun c => c = ' ' ∨ c = '\t')).reverse
  String.mk (dropTrailing.dropWhile (fun c => c = ' ' ∨ c = '\t'))

/-! ## Filter engine decision operations (filter.c) -/

/-- `filter_engine_should_include_path` (filter.c lines 324-370), rule
loop: rules are consulted in registration order; an Exclude rule whose
path matcher fires vetoes, an Include rule whose path matcher does not
fire vetoes; otherwise include by default.  (The engine's plugin list is
empty in every configuration modelled here.) -/
def filter_engine_should_include_path : List FilterRule → String → Option FileInfo → Bool
  | [], _, _ => true
  | r :: rest, path, info =>
    match r.match_path with
    | none => filter_engine_should_include_path rest path info
    | some m =>
      let result := m path info
      if r.type = FILTER_TYPE_EXCLUDE ∧ result then false
      else if r.type = FILTER_TYPE_INCLUDE ∧ ¬ result then false
      else filter_engine_should_include_path rest path info

/-- `filter_engine_should_include_content` (filter.c lines 372-418). -/
def filter_engine_should_include_content : List FilterRule → String → String → Bool
  | [], _, _ => true
  | r :: rest, path, content =>
    match r.match_content with
    | none => filter_engine_should_include_content rest path content
    | some m =>
      let result := m path content
      if r.type = FILTER_TYPE_EXCLUDE ∧ result then false
      else if r.type = FILTER_TYPE_INCLUDE ∧ ¬ result then false
      else filter_engine_should_include_content rest path content

/-- `filter_engine_transform_content` (filter.c lines 420-492), rule loop:
every Transform rule's transform function is attempted in registration
order, ignoring the rule's matchers; a successful transform replaces the
current chunk, a declined one leaves it unchanged. -/
def filter_engine_transform_content : List FilterRule → String → String → String
  | [], _, data => data
  | r :: rest, path, data =>
    let data' :=
      if r.type = FILTER_TYPE_TRANSFORM then
        match r.transform with
        | some t =>
          match t path data with
          | some out => out
          | none => data
        | none => data
      else data
    filter_engine_transform_content rest path data'

/-! ## Built-in rule installers (filter_exclude.c, filter_include.c,
filter_binary.c, filter_symlink.c, filter.c) -/

/-- `filter_exclude_patterns_init_internal` (filter_exclude.c): one
Exclude rule at priority 100 when exclude patterns exist. -/
def filter_exclude_patterns_init_internal (config : ResolvedConfig) : List FilterRule :=
  if config.exclude_patterns = [] then []
  else
    [{ type := FILTER_TYPE_EXCLUDE, priority := 100,
       match_path := some (exclude_match_path (config.exclude_patterns.map trimPattern)),
       match_content := none, transform := none }]

/-- `filter_include_patterns_init_internal` (filter_include.c): one
Include rule at priority 50 when include patterns exist.  NOTE: this
installer exists in the source but `filter_engine_configure` never calls
it (nor does anything else). -/
def filter_include_patterns_init_internal (config : ResolvedConfig) : List FilterRule :=
  if config.include_patterns = [] then []
  else
    [{ type := FILTER_TYPE_INCLUDE, priority := 50,
       match_path := some (include_match_path (config.include_patterns.map trimPattern)),
       match_content := none, transform := none }]

/-- `binary_match_content` (filter_binary.c): scan the first 1024 bytes of
the chunk for a NUL byte. -/
def binary_match_content (path content : String) : Bool :=
  (content.toList.take 1024).any (fun c => c = Char.ofNat 0)

/-- The placeholder emitted by `binary_transform` (filter_binary.c). -/
def binaryPlaceholder : String := "// [Binary file content not displayed]\n"

/-- `binary_transform` (filter_binary.c): ignores path and input entirely;
produces the fixed placeholder under BINARY_PLACEHOLDER, declines
otherwise. -/
def binary_transform (handling : BinaryHandling) (path input : String) :
    Option String :=
  if handling = BINARY_PLACEHOLDER then some binaryPlaceholder else none

/-- `filter_binary_detection_init_internal` (filter_binary.c). -/
def filter_binary_detection_init_internal (config : ResolvedConfig) : List FilterRule :=
  match config.binary_handling with
  | BINARY_SKIP =>
    [{ type := FILTER_TYPE_EXCLUDE, priority := 90, match_path := none,
       match_content := some binary_match_content, transform := none }]
  | BINARY_PLACEHOLDER =>
    [{ type := FILTER_TYPE_TRANSFORM, priority := 90, match_path := none,
       match_content := some binary_match_content,
       transform := some (binary_transform config.binary_handling) }]
  | BINARY_INCLUDE => []

/-- `symlink_match_path` (filter_symlink.c). -/
def symlink_match_path (path : String) (info : Option FileInfo) : Bool :=
  match info with
  | some i => i.is_symlink
  | none => false

/-- `symlink_transform` (filter_symlink.c) under SYMLINK_PLACEHOLDER:
always produces a placeholder (readlink target, a too-long fallback when
the formatted line would not fit the 2048-byte buffer, or an unreadable
fallback); declines under every other handling. -/
def symlink_transform (handling : SymlinkHandling) (env : FilterEnv)
    (path input : String) : Option String :=
  if handling = SYMLINK_PLACEHOLDER then
    some (match env.readlink path with
      | some target =>
        if 24 + target.length ≤ 2047 then
          "// [Symbolic link to: " ++ target ++ "]\n"
        else
          "// [Symbolic link - target too long]\n"
      | none => "// [Symbolic link - target unreadable]\n")
  else none

/-- `filter_symlink_handling_init_internal` (filter_symlink.c). -/
def filter_symlink_handling_init_internal (env : FilterEnv) (config : ResolvedConfig) :
    List FilterRule :=
  match config.symlink_handling with
  | SYMLINK_SKIP =>
    [{ type := FILTER_TYPE_EXCLUDE, priority := 80,
       match_path := some symlink_match_path,
       match_content := none, transform := none }]
  | SYMLINK_PLACEHOLDER =>
    [{ type := FILTER_TYPE_TRANSFORM, priority := 80,
       match_path := some symlink_match_path,
       match_content := none,
       transform := some (symlink_transform config.symlink_handling env) }]
  | SYMLINK_FOLLOW => []
  | SYMLINK_INCLUDE => []

/-- `add_output_file_exclusion` (filter.c lines 149-248): when the output
file resolves inside the input directory, install an Exclude rule at
priority 200 matching its absolute path, its path relative to the input
root, and its basename. -/
def add_output_file_exclusion (env : FilterEnv) (config : ResolvedConfig) :
    List FilterRule :=
  let abs_input := get_absolute_path_util env config.input_directory
  let abs_output := get_absolute_path_util env config.output_file
  let normalized_input := ensureTrailingSep abs_input
  if strIsPrefixOf normalized_input abs_output then
    let patterns := [abs_output] ++
      (get_relative_path_util env config.input_directory config.output_file).toList ++
      [get_filename_util config.output_file]
    [{ type := FILTER_TYPE_EXCLUDE, priority := 200,
       match_path := some (exclude_match_path patterns),
       match_content := none, transform := none }]
  else []

/-- `filter_engine_configure` (filter.c lines 250-270): the rules
installed, in registration order — output-self-exclusion, user exclude
patterns, binary detection, symlink handling.  (It never installs the
include-pattern rule: `filter_include_patterns_init` has no caller.) -/
def filter_engine_configure (env : FilterEnv) (config : ResolvedConfig) :
    List FilterRule :=
  add_output_file_exclusion env config ++
  filter_exclude_patterns_init_internal config ++
  filter_binary_detection_init_internal config ++
  filter_symlink_handling_init_internal env config

/-! ## Format engine (src/format/format.c, format_text.c, format_json.c)

A serializer plugin is modelled by its identity fields and its
`write_file_chunk` behaviour (the bytes it sends to the output for a given
chunk); the remaining document-protocol hooks write fixed boilerplate and
are not needed by any claim. -/

structure FormatPlugin where
  name : String
  file_extension : String
  mime_type : String
  write_file_chunk : String → String

/-- `text_write_file_chunk` (format_text.c): raw byte passthrough. -/
def text_write_file_chunk (data : String) : String := data

/-- `json_write_file_chunk` (format_json.c): the JSON escape table —
quote, backslash, newline, carriage return, tab; every other byte raw. -/
def json_escape_char (c : Char) : String :=
  if c = '"' then "\\\""
  else if c = '\\' then "\\\\"
  else if c = '\n' then "\\n"
  else if c = '\r' then "\\r"
  else if c = '\t' then "\\t"
  else String.mk [c]

def json_write_file_chunk (data : String) : String :=
  String.join (data.toList.map json_escape_char)

/-- `format_text_plugin` (format_text.c). -/
def format_text_plugin : FormatPlugin :=
  { name := "text", file_extension := "txt", mime_type := "text/plain",
    write_file_chunk := text_write_file_chunk }

/-- `format_json_plugin` (format_json.c).  NOTE: defined in the source but
never registered with any engine — `format_json_plugin` has no caller. -/
def format_json_plugin : FormatPlugin :=
  { name := "json", file_extension := "json", mime_type := "application/json",
    write_file_chunk := json_write_file_chunk }

def MAX_PLUGINS : Nat := 32

structure FormatEngine where
  plugins : List FormatPlugin
  active_formatter : Option FormatPlugin

/-- `format_engine_register_plugin` (format.c lines 94-112): append to the
registry (bounded by MAX_PLUGINS); the first registered plugin becomes
active. -/
def format_engine_register_plugin (engine : FormatEngine) (plugin : FormatPlugin) :
    FormatEngine :=
  if engine.plugins.length ≥ MAX_PLUGINS then engine
  else
    { plugins := engine.plugins ++ [plugin],
      active_formatter :=
        if engine.plugins.length + 1 = 1 then some plugin else engine.active_formatter }

/-- `format_engine_create` (format.c lines 8-26): registers ONLY the
built-in text formatter. -/
def format_engine_create : FormatEngine :=
  format_engine_register_plugin { plugins := [], active_formatter := none }
    format_text_plugin

/-- `format_engine_set_active_formatter_unlocked` (format.c lines 51-67):
activate the first registered plugin with the given name; `none` when the
name is unknown (the C function returns -1 and leaves the engine
unchanged). -/
def format_engine_set_active_formatter_unlocked (engine : FormatEngine)
    (name : String) : Option FormatEngine :=
  (engine.plugins.find? (fun p => p.name = name)).map
    (fun p => { engine with active_formatter := some p })

/-- `format_engine_configure` (format.c lines 69-92): activate the plugin
named by the configured output format, falling back to the first
registered plugin when the name is unknown. -/
def format_engine_configure (engine : FormatEngine) (config : ResolvedConfig) :
    FormatEngine :=
  let format_name := config.output_format
  match format_engine_set_active_formatter_unlocked engine format_name with
  | some engine' => engine'
  | none =>
    match engine.plugins with
    | p :: _ => { engine with active_formatter := some p }
    | [] => engine

/-! ## Memory manager (src/core/memory.c)

The heap is a finite map from abstract pointer ids to blocks; a block
keeps its header and tail canary readable after the underlying `free`
(mirroring the code's reliance on the freed header for double-free
detection).  The randomized magic values are carried as parameters;
`init_memory_magic` guarantees they are pairwise distinct. -/

structure MagicValues where
  magic : Nat
  freed_magic : Nat
  canary : Nat
deriving DecidableEq, Repr

structure AllocationHeader where
  size : Nat
  magic : Nat
deriving DecidableEq, Repr

structure Block where
  header : AllocationHeader
  tailCanary : Nat
  liveInLibc : Bool
deriving DecidableEq, Repr

structure MemoryStats where
  total_allocated : Nat
  total_freed : Nat
  current_usage : Nat
  peak_usage : Nat
  allocation_count : Nat
  free_count : Nat
deriving DecidableEq, Repr

inductive MemEvent
  | free_double_free
  | free_header_corruption
  | free_canary_overflow
  | realloc_header_corruption
  | realloc_canary_overflow
deriving DecidableEq, Repr

structure MemState where
  blocks : List (Nat × Block)
  nextPtr : Nat
  track_allocations : Bool
  stats : MemoryStats
  log : List MemEvent
deriving DecidableEq, Repr

def lookupPtr (p : Nat) : List (Nat × Block) → Option Block
  | [] => none
  | (q, b) :: rest => if q = p then some b else lookupPtr p rest

def updateBlock (p : Nat) (b : Block) : List (Nat × Block) → List (Nat × Block)
  | [] => []
  | (q, ob) :: rest =>
    if q = p then (q, b) :: rest else (q, ob) :: updateBlock p b rest

/-- Allocation-side statistics update (memory.c lines 354-365): sizes and
counts grow, peak tracks the high-water mark. -/
def statsOnAlloc (stats : MemoryStats) (size : Nat) : MemoryStats :=
  let cu := stats.current_usage + size
  { stats with
    total_allocated := stats.total_allocated + size,
    current_usage := cu,
    allocation_count := stats.allocation_count + 1,
    peak_usage := if cu > stats.peak_usage then cu else stats.peak_usage }

/-- `memory_alloc` (memory.c lines 338-368): stamp header with live magic,
write the tail canary, update statistics; returns the fresh pointer. -/
def memory_alloc (g : MagicValues) (s : MemState) (size : Nat) : Nat × MemState :=
  let p := s.nextPtr
  let block : Block :=
    { header := { size := size, magic := g.magic },
      tailCanary := g.canary, liveInLibc := true }
  (p, { s with
        blocks := (p, block) :: s.blocks,
        nextPtr := p + 1,
        stats := if s.track_allocations then statsOnAlloc s.stats size else s.stats })

/-- `memory_free` (memory.c lines 427-465): refuse a freed-magic header
(double free) and an unknown-magic header (corruption); warn but proceed
on a corrupted tail canary; otherwise update statistics, overwrite the
header magic with the freed magic, and release. -/
def memory_free (g : MagicValues) (s : MemState) (p : Nat) : MemState :=
  match lookupPtr p s.blocks with
  | none => s
  | some b =>
    if b.header.magic = g.freed_magic then
      { s with log := MemEvent.free_double_free :: s.log }
    else if b.header.magic ≠ g.magic then
      { s with log := MemEvent.free_header_corruption :: s.log }
    else
      let log' := if b.tailCanary ≠ g.canary then
          MemEvent.free_canary_overflow :: s.log else s.log
      let stats' := if s.track_allocations then
          { s.stats with
            current_usage := s.stats.current_usage - b.header.size,
            total_freed := s.stats.total_freed + b.header.size,
            free_count := s.stats.free_count + 1 }
        else s.stats
      { s with
        blocks := updateBlock p
          { b with header := { b.header with magic := g.freed_magic },
                   liveInLibc := false } s.blocks,
        stats := stats', log := log' }

/-- `memory_realloc` (memory.c lines 370-425): null pointer acts as
alloc; size 0 acts as free and returns no pointer; otherwise re-validate
header magic and tail canary, resize (pointer identity abstracted as
in-place), re-stamp a fresh tail canary, and update statistics. -/
def memory_realloc (g : MagicValues) (s : MemState) (ptr : Option Nat)
    (size : Nat) : Option Nat × MemState :=
  match ptr with
  | none =>
    let (p, s') := memory_alloc g s size
    (some p, s')
  | some p =>
    if size = 0 then (none, memory_free g s p)
    else
      match lookupPtr p s.blocks with
      | none => (none, s)
      | some b =>
        if b.header.magic ≠ g.magic then
          (none, { s with log := MemEvent.realloc_header_corruption :: s.log })
        else if b.tailCanary ≠ g.canary then
          (none, { s with log := MemEvent.realloc_canary_overflow :: s.log })
        else
          let stats' := if s.track_allocations then
              let cu := s.stats.current_usage - b.header.size + size
              { s.stats with
                current_usage := cu,
                total_allocated := s.stats.total_allocated + size,
                allocation_count := s.stats.allocation_count + 1,
                peak_usage := if cu > s.stats.peak_usage then cu
                              else s.stats.peak_usage }
            else s.stats
          (some p,
           { s with
             blocks := updateBlock p
               { b with header := { size := size, magic := g.magic },
                        tailCanary := g.canary } s.blocks,
             stats := stats' })

/-! ## Buffer pool (src/core/memory.c lines 97-298) -/

def SMALL_BUFFER_SIZE : Nat := 4096
def MEDIUM_BUFFER_SIZE : Nat := 16384
def LARGE_BUFFER_SIZE : Nat := 65536
def SMALL_BUFFER_COUNT : Nat := 20
def MEDIUM_BUFFER_COUNT : Nat := 10
def LARGE_BUFFER_COUNT : Nat := 5

/-- A pool pointer is a tier-slot index; a heap pointer is a fresh malloc
fallback.  Pointer identity is id equality. -/
inductive BufPtr
  | pool (i : Nat)
  | heap (id : Nat)
deriving DecidableEq, Repr

/-- Pool slots in tier order: `(buffer_sizes[i], in_use[i])`. -/
structure BufferPool where
  slots : List (Nat × Bool)
deriving DecidableEq, Repr

structure PoolState where
  pool : BufferPool
  nextHeap : Nat
  heapLive : List Nat
deriving DecidableEq, Repr

/-- `buffer_pool_create` (memory.c lines 107-212): 20 small, 10 medium,
5 large buffers, all free. -/
def buffer_pool_create : BufferPool :=
  { slots := List.replicate SMALL_BUFFER_COUNT (SMALL_BUFFER_SIZE, false) ++
             List.replicate MEDIUM_BUFFER_COUNT (MEDIUM_BUFFER_SIZE, false) ++
             List.replicate LARGE_BUFFER_COUNT (LARGE_BUFFER_SIZE, false) }

def initialPoolState : PoolState :=
  { pool := buffer_pool_create, nextHeap := 0, heapLive := [] }

/-- The best-fit scan of `buffer_pool_get` (memory.c lines 244-257):
left-to-right, keeping the first free, large-enough slot of strictly
smallest size; `best` is the accumulator `(best_index, best_size)`. -/
def bestFitScan (size : Nat) : List (Nat × Bool) → Nat → Option (Nat × Nat) →
    Option (Nat × Nat)
  | [], _, best => best
  | (sz, used) :: rest, i, best =>
    let qualifies : Bool := !used && decide (size ≤ sz) &&
      (match best with
       | none => true
       | some (_, best_size) => decide (sz < best_size))
    bestFitScan size rest (i + 1) (if qualifies then some (i, sz) else best)

def setSlotInUse (slots : List (Nat × Bool)) (i : Nat) (u : Bool) :
    List (Nat × Bool) :=
  match slots.get? i with
  | some (sz, _) => slots.set i (sz, u)
  | none => slots

/-- `buffer_pool_get` (memory.c lines 236-270): best-fit tier buffer when
one qualifies, else a fresh heap allocation. -/
def buffer_pool_get (s : PoolState) (size : Nat) : BufPtr × PoolState :=
  match bestFitScan size s.pool.slots 0 none with
  | some (best_index, _) =>
    (BufPtr.pool best_index,
     { s with pool := { slots := setSlotInUse s.pool.slots best_index true } })
  | none =>
    (BufPtr.heap s.nextHeap,
     { s with nextHeap := s.nextHeap + 1, heapLive := s.nextHeap :: s.heapLive })

/-- `buffer_pool_release` (memory.c lines 272-298): a buffer found in the
pool by pointer identity is marked free; anything else was malloc'd and
is freed. -/
def buffer_pool_release (s : PoolState) (buffer : BufPtr) : PoolState :=
  match buffer with
  | BufPtr.pool i =>
    { s with pool := { slots := setSlotInUse s.pool.slots i false } }
  | BufPtr.heap id =>
    { s with heapLive := s.heapLive.erase id }

/-! ## Traversal engine (src/core/context.c)

The filesystem is abstracted as a finite map from a directory's
`(st_dev, st_ino)` pair to its entry list (readdir order, `.`/`..`
omitted).  An entry's `lstat`/resolution outcome is part of its kind:
`statFail` models an entry whose `lstat` fails, a directory carries its
`(dev, ino)` pair and whether `opendir` on it fails, and a symlink
carries what `realpath`+`stat` yields under SYMLINK_FOLLOW (`none`
covering both resolution failure and a failing stat of the target, which
the code treats alike: warn and fall back to the unresolved symlink).
Abstracted: textual path contents beyond concatenation (MAX_PATH
truncation, realpath's output string — the resolved directory's frame
path is approximated by the entry's own path, which only affects warning
text), st_size/st_mtime/st_mode (not read by any claim), and `.`/`..`
skipping (the map's entry lists never contain them). -/

def MAX_VISITED_DIRS : Nat := 256
def DIR_STACK_INITIAL_CAPACITY : Nat := 256
def MAX_DIRECTORY_DEPTH : Nat := 256

inductive ResolveRes
  | toDir (dev ino : Nat) (openFails : Bool)
  | toFile
deriving DecidableEq, Repr

inductive EKind
  | file
  | dir (dev ino : Nat) (openFails : Bool)
  | symlink (resolved : Option ResolveRes)
  | statFail
deriving DecidableEq, Repr

structure Entry where
  name : String
  kind : EKind
deriving DecidableEq, Repr

/-- The external filesystem: each directory's `(st_dev, st_ino)` pair is
mapped to its entry list. -/
def FS : Type := Nat → Nat → List Entry

def entriesOf (fs : FS) (dev ino : Nat) : List Entry :=
  fs dev ino

inductive EntryType
  | ENTRY_TYPE_FILE
  | ENTRY_TYPE_DIRECTORY
deriving DecidableEq, Repr

open EntryType

/-- DirStackEntry (context.c lines 65-72); the open `DIR *` handle is the
list of entries not yet returned by `readdir`. -/
structure Frame where
  path : String
  relative_path : String
  remaining : List Entry
  level : Nat
  dev : Nat
  ino : Nat
deriving DecidableEq, Repr

def pairOf (f : Frame) : Nat × Nat := (f.dev, f.ino)

/-- Observable happenings of one traversal, newest first: the warnings the
code logs, filter exclusions, callback invocations with their level and
return code, and successful stack pushes. -/
inductive TraceEv
  | warnDepth (maxDepth : Nat)
  | warnStat (path : String)
  | warnResolve (path : String)
  | warnCycle (path : String)
  | warnOpen (path : String)
  | warnStackFull (path : String)
  | excluded (path : String)
  | cb (path : String) (etype : EntryType) (level : Nat) (result : Int)
  | pushed (path : String) (level : Nat) (dev ino : Nat)
deriving DecidableEq, Repr

structure TState where
  stack : List Frame
  visited : List (Nat × Nat)
  events : List TraceEv
deriving DecidableEq, Repr

/-- `visited_set_contains` (context.c lines 30-39). -/
def visited_set_contains (set : List (Nat × Nat)) (dev ino : Nat) : Bool :=
  (dev, ino) ∈ set

/-- `visited_set_add` (context.c lines 42-49): fails silently (set
unchanged) when the set already holds MAX_VISITED_DIRS pairs — the
callers ignore its return value. -/
def visited_set_add (set : List (Nat × Nat)) (dev ino : Nat) : List (Nat × Nat) :=
  if MAX_VISITED_DIRS ≤ set.length then set else (dev, ino) :: set

/-- `visited_set_pop` (context.c lines 52-57): drop the most recently
added pair. -/
def visited_set_pop (set : List (Nat × Nat)) : List (Nat × Nat) :=
  set.tail

/-- Traversal collaborators: the filesystem, the configured symlink
policy, the filter engine's path decision, the binary probe, and the
per-entry callback. -/
structure TraversalEnv where
  fs : FS
  symlink_handling : SymlinkHandling
  includePath : String → FileInfo → Bool
  isBinaryFile : String → Bool
  callback : String → EntryType → FileInfo → Nat → Int

/-- `build_full_path` (context.c lines 143-158). -/
def build_full_path (base_path relative_path : String) : String :=
  if relative_path = "" then base_path else base_path ++ "/" ++ relative_path

/-- `build_relative_path` (context.c lines 161-176). -/
def build_relative_path (current_rel name : String) : String :=
  if current_rel = "" then name else current_rel ++ "/" ++ name

/-- FileInfo construction for one entry (context.c lines 300-327): lstat
fields, then the SYMLINK_FOLLOW refresh.  Returns the info, the push
target for a directory (its `(dev, ino)` and whether opendir fails), and
whether a resolution warning was logged. -/
def entryFileInfo (handling : SymlinkHandling) (k : EKind) :
    FileInfo × Option (Nat × Nat × Bool) × Bool :=
  let base : FileInfo :=
    { size := 0, modified_time := 0, is_directory := false,
      is_symlink := false, is_binary := false, permissions := 0 }
  match k with
  | EKind.file => (base, none, false)
  | EKind.dir dev ino openFails =>
    ({ base with is_directory := true }, some (dev, ino, openFails), false)
  | EKind.symlink resolved =>
    let info := { base with is_symlink := true }
    if handling = SYMLINK_FOLLOW then
      match resolved with
      | some (ResolveRes.toDir dev ino openFails) =>
        ({ info with is_directory := true }, some (dev, ino, openFails), false)
      | some ResolveRes.toFile => (info, none, false)
      | none => (info, none, true)
    else (info, none, false)
  | EKind.statFail => (base, none, false)

inductive StepRes
  | running (s : TState)
  | done (code : Int) (s : TState)

/-- One iteration of the traversal loop of `traverse_directory_internal`
(context.c lines 250-400): either `readdir` exhaustion (close, pop
visited, pop frame) or the processing of one directory entry. -/
def step (env : TraversalEnv) (s : TState) : StepRes :=
  match s.stack with
  | [] => StepRes.done 0 s
  | current :: restStack =>
    match current.remaining with
    | [] =>
      StepRes.running { s with
        stack := restStack,
        visited := visited_set_pop s.visited }
    | entry :: restEntries =>
      let stack' := { current with remaining := restEntries } :: restStack
      if MAX_DIRECTORY_DEPTH ≤ current.level then
        StepRes.running { s with
          stack := stack',
          events := TraceEv.warnDepth MAX_DIRECTORY_DEPTH :: s.events }
      else
        let entry_full_path := build_full_path current.path entry.name
        let entry_rel_path := build_relative_path current.relative_path entry.name
        if entry.kind = EKind.statFail then
          StepRes.running { s with
            stack := stack',
            events := TraceEv.warnStat entry_full_path :: s.events }
        else
          let (file_info, dirTarget, resolveWarned) :=
            entryFileInfo env.symlink_handling entry.kind
          let events₀ :=
            if resolveWarned then TraceEv.warnResolve entry_full_path :: s.events
            else s.events
          if ¬ env.includePath entry_rel_path file_info then
            StepRes.running { s with
              stack := stack',
              events := TraceEv.excluded entry_rel_path :: events₀ }
          else
            let entry_type :=
              if file_info.is_directory then ENTRY_TYPE_DIRECTORY else ENTRY_TYPE_FILE
            let file_info :=
              if entry_type = ENTRY_TYPE_FILE ∧ ¬ file_info.is_symlink then
                { file_info with is_binary := env.isBinaryFile entry_full_path }
              else file_info
            let callback_result :=
              env.callback entry_rel_path entry_type file_info current.level
            let events₁ :=
              TraceEv.cb entry_rel_path entry_type current.level callback_result ::
                events₀
            if callback_result ≠ 0 then
              StepRes.done callback_result
                { s with stack := stack', events := events₁ }
            else
              match dirTarget with
              | none =>
                StepRes.running { s with stack := stack', events := events₁ }
              | some (dev, ino, openFails) =>
                if visited_set_contains s.visited dev ino then
                  StepRes.running { s with
                    stack := stack',
                    events := TraceEv.warnCycle entry_full_path :: events₁ }
                else if openFails then
                  StepRes.running { s with
                    stack := stack',
                    events := TraceEv.warnOpen entry_full_path :: events₁ }
                else
                  let visited' := visited_set_add s.visited dev ino
                  if DIR_STACK_INITIAL_CAPACITY ≤ stack'.length then
                    StepRes.running { s with
                      stack := stack',
                      visited := visited_set_pop visited',
                      events := TraceEv.warnStackFull entry_full_path :: events₁ }
                  else
                    let newFrame : Frame :=
                      { path := entry_full_path,
                        relative_path := entry_rel_path,
                        remaining := entriesOf env.fs dev ino,
                        level := current.level + 1,
                        dev := dev, ino := ino }
                    StepRes.running { s with
                      stack := newFrame :: stack',
                      visited := visited',
                      events := TraceEv.pushed entry_full_path
                        (current.level + 1) dev ino :: events₁ }

/-- The traversal loop, fuelled: `none` means the fuel ran out before the
loop finished. -/
def runT (env : TraversalEnv) : Nat → TState → Option (Int × TState)
  | 0, _ => none
  | fuel + 1, s =>
    match step env s with
    | StepRes.running s' => runT env fuel s'
    | StepRes.done code s' => some (code, s')

/-- The state after `n` loop iterations (stationary once the loop has
finished). -/
def stateAt (env : TraversalEnv) : Nat → TState → TState
  | 0, s => s
  | n + 1, s =>
    match step env s with
    | StepRes.running s' => stateAt env n s'
    | StepRes.done _ s' => s'

/-- Initial state built by `traverse_directory` (fresh visited set) and
the head of `traverse_directory_internal` (context.c lines 210-247): stat
and open the root, add its pair to the visited set, push the first
frame. -/
def initTState (env : TraversalEnv) (base_path relative_path : String)
    (level : Nat) (rootDev rootIno : Nat) : TState :=
  let initial_full_path := build_full_path base_path relative_path
  { stack := [{ path := initial_full_path, relative_path := relative_path,
                remaining := entriesOf env.fs rootDev rootIno,
                level := level, dev := rootDev, ino := rootIno }],
    visited := visited_set_add [] rootDev rootIno,
    events := [] }

/-- `traverse_directory` (context.c lines 407-412) over an accessible
root. -/
def traverse_directory (env : TraversalEnv) (base_path relative_path : String)
    (level : Nat) (rootDev rootIno : Nat) (fuel : Nat) : Option (Int × TState) :=
  runT env fuel (initTState env base_path relative_path level rootDev rootIno)

/-- A Transform rule whose transform appends a fixed tag, used to observe
the order in which the chain applies rules. -/
def appendTagRule (tag : String) (prio : Int) : FilterRule :=
  { type := FILTER_TYPE_TRANSFORM, priority := prio,
    match_path := none, match_content := none,
    transform := some (fun _ data => some (data ++ tag)) }

/-- Concrete values for the memory-manager witnesses. -/
def g0 : MagicValues := { magic := 1, freed_magic := 2, canary := 3 }

def zeroStats : MemoryStats :=
  { total_allocated := 0, total_freed := 0, current_usage := 0,
    peak_usage := 0, allocation_count := 0, free_count := 0 }

def memEmpty : MemState :=
  { blocks := [], nextPtr := 0, track_allocations := true,
    stats := zeroStats, log := [] }

/-- Depth discipline of a single trace event: callbacks fire only below
the depth cap, frames are only ever pushed at most at the cap. -/
def evDepthOk : TraceEv → Bool
  | TraceEv.cb _ _ lvl _ => decide (lvl < MAX_DIRECTORY_DEPTH)
  | TraceEv.pushed _ lvl _ _ => decide (lvl ≤ MAX_DIRECTORY_DEPTH)
  | _ => true

def isStackFullWarn : TraceEv → Bool
  | TraceEv.warnStackFull _ => true
  | _ => false

def isCbEv : TraceEv → Bool
  | TraceEv.cb _ _ _ _ => true
  | _ => false

/-- A callback event with return code 0 (non-callback events pass). -/
def cbResultZero : TraceEv → Bool
  | TraceEv.cb _ _ _ res => res == 0
  | _ => true

def noStackFull (evs : List TraceEv) : Bool :=
  evs.all (fun ev => ! isStackFullWarn ev)

/-- Visited-set/stack alignment: the visited set holds exactly the
`(dev, ino)` pairs of the currently open frames, newest first. -/
def visitedAligned (s : TState) : Prop :=
  s.visited = s.stack.map pairOf

/-- The state carried by a step result. -/
def stepState : StepRes → TState
  | StepRes.running s => s
  | StepRes.done _ s => s

/-! ### C8 concrete scenario: a chain reaching the depth cap.

The traversal's public API takes the starting level; from the default
starting level 0 a frame at the cap is unreachable (the 256-frame
directory stack fills one level earlier), so the cap is exercised from
starting level 251 with a five-deep chain whose deepest directory holds
one file. -/

def capFS : FS := fun dev ino =>
  if dev = 0 ∧ ino < 5 then [⟨"d", EKind.dir 0 (ino + 1) false⟩]
  else if dev = 0 ∧ ino = 5 then [⟨"f", EKind.file⟩]
  else []

def capEnv : TraversalEnv :=
  { fs := capFS, symlink_handling := SYMLINK_SKIP,
    includePath := fun _ _ => true, isBinaryFile := fun _ => false,
    callback := fun _ _ _ _ => 0 }

def capFinal : Int × TState :=
  (traverse_directory capEnv "/r" "" 251 0 0 40).getD (0, ⟨[], [], []⟩)

def c8ConcreteCheck : Bool :=
  match traverse_directory capEnv "/r" "" 251 0 0 40 with
  | some (r, tr) =>
    r == 0 && tr.events.contains (TraceEv.warnDepth MAX_DIRECTORY_DEPTH) &&
    ((tr.events.filter isCbEv).length == 5)
  | none => false

/-! ### C9 concrete scenario: per-entry stat/open failures only warn, a
non-zero callback aborts with its code. -/

def c9FS : FS := fun dev ino =>
  if dev = 0 ∧ ino = 0 then
    [⟨"bad", EKind.statFail⟩,
     ⟨"locked", EKind.dir 0 7 true⟩,
     ⟨"a.txt", EKind.file⟩]
  else []

def c9WarnEnv : TraversalEnv :=
  { fs := c9FS, symlink_handling := SYMLINK_SKIP,
    includePath := fun _ _ => true, isBinaryFile := fun _ => false,
    callback := fun _ _ _ _ => 0 }

def c9AbortEnv : TraversalEnv :=
  { c9WarnEnv with
    callback := fun p _ _ _ => if p = "a.txt" then 7 else 0 }

def c9ConcreteCheck : Bool :=
  (match traverse_directory c9WarnEnv "/r" "" 0 0 0 20 with
   | some (r, tr) =>
     r == 0 && tr.events.contains (TraceEv.warnStat "/r/bad") &&
     tr.events.contains (TraceEv.warnOpen "/r/locked")
   | none => false) &&
  (match traverse_directory c9AbortEnv "/r" "" 0 0 0 20 with
   | some (r, tr) =>
     r == 7 &&
     (match tr.events with
      | TraceEv.cb p _ _ res :: _ => p == "a.txt" && res == 7
      | _ => false)
   | none => false)

def c9Final : Int × TState :=
  (traverse_directory c9AbortEnv "/r" "" 0 0 0 20).getD (0, ⟨[], [], []⟩)

/-! ### C7 concrete scenarios.

`cycFS`: a root whose only entry is a symlink back to the root itself —
under SYMLINK_FOLLOW the cycle check rejects it with a circular-symlink
warning and traversal terminates.  `hardFS`: two sibling directories
sharing one `(dev, ino)` pair (hard-linked) — the pair legally reappears
after the first sibling's frame is popped, so both are entered.
`deepFS`: a 256-deep chain that fills the directory stack, plus a
follow-symlink loop; the failed push at full capacity pops a foreign
visited-set entry (`visited_set_add`'s failure is ignored while
`dir_stack_push`'s failure still triggers `visited_set_pop`), after which
the same `(dev, ino)` pair appears TWICE among the open frames. -/

def cycFS : FS := fun dev ino =>
  if dev = 1 ∧ ino = 1 then
    [⟨"loop", EKind.symlink (some (ResolveRes.toDir 1 1 false))⟩]
  else []

def cycEnv : TraversalEnv :=
  { fs := cycFS, symlink_handling := SYMLINK_FOLLOW,
    includePath := fun _ _ => true, isBinaryFile := fun _ => false,
    callback := fun _ _ _ _ => 0 }

def c7CycleCheck : Bool :=
  match traverse_directory cycEnv "/r" "" 0 1 1 10 with
  | some (r, tr) =>
    r == 0 && tr.events.contains (TraceEv.warnCycle "/r/loop")
  | none => false

def hardFS : FS := fun dev ino =>
  if dev = 0 ∧ ino = 0 then
    [⟨"a", EKind.dir 0 5 false⟩, ⟨"b", EKind.dir 0 5 false⟩]
  else []

def hardEnv : TraversalEnv :=
  { fs := hardFS, symlink_handling := SYMLINK_SKIP,
    includePath := fun _ _ => true, isBinaryFile := fun _ => false,
    callback := fun _ _ _ _ => 0 }

def isPushOfPair (dev ino : Nat) : TraceEv → Bool
  | TraceEv.pushed _ _ d i => d == dev && i == ino
  | _ => false

def c7HardlinkCheck : Bool :=
  match traverse_directory hardEnv "/r" "" 0 0 0 10 with
  | some (r, tr) =>
    r == 0 && ((tr.events.filter (isPushOfPair 0 5)).length == 2)
  | none => false

def deepFS : FS := fun dev ino =>
  if dev = 0 then
    if ino ≤ 253 then [⟨"d", EKind.dir 0 (ino + 1) false⟩]
    else if ino = 254 then
      [⟨"d", EKind.dir 0 255 false⟩,
       ⟨"loop", EKind.symlink (some (ResolveRes.toDir 0 254 false))⟩]
    else if ino = 255 then [⟨"x", EKind.dir 0 9999 false⟩]
    else []
  else []

def deepEnv : TraversalEnv :=
  { fs := deepFS, symlink_handling := SYMLINK_FOLLOW,
    includePath := fun _ _ => true, isBinaryFile := fun _ => false,
    callback := fun _ _ _ _ => 0 }

def deepInit : TState := initTState deepEnv "/r" "" 0 0 0

/-! ## Concrete configurations used by the claims -/

/-- An environment in which realpath resolves every path to itself and
readlink always fails (no symlinks are involved). -/
def idFilterEnv : FilterEnv := { absPath := id, readlink := fun _ => none }

/-- The C1 scenario configuration: include `*.c`, exclude `test_*.c`,
defaults elsewhere (config.c: BINARY_SKIP, SYMLINK_SKIP, format "text");
the output file lies outside the input directory. -/
def c1Config : ResolvedConfig :=
  { binary_handling := BINARY_SKIP, symlink_handling := SYMLINK_SKIP,
    output_format := "text", input_directory := "/proj",
    output_file := "/out.txt",
    exclude_patterns := ["test_*.c"], include_patterns := ["*.c"] }

/-- The C2 scenario configuration: output format "json". -/
def c2Config : ResolvedConfig :=
  { binary_handling := BINARY_SKIP, symlink_handling := SYMLINK_SKIP,
    output_format := "json", input_directory := "/proj",
    output_file := "/out.txt",
    exclude_patterns := [], include_patterns := [] }

/-- The C10 counterexample configuration: binary placeholder policy
combined with symlink placeholder policy. -/
def c10Config : ResolvedConfig :=
  { binary_handling := BINARY_PLACEHOLDER, symlink_handling := SYMLINK_PLACEHOLDER,
    output_format := "text", input_directory := "/proj",
    output_file := "/out.txt",
    exclude_patterns := [], include_patterns := [] }

/-- The C10 amended-claim witness configuration: binary placeholder with
symlink skip. -/
def c10SkipConfig : ResolvedConfig :=
  { c10Config with symlink_handling := SYMLINK_SKIP }

/-! ## Helper lemmas for the filter engine -/

/-- Reassigning every rule's priority field. -/
def setRulePriority (f : FilterRule → Int) (r : FilterRule) : FilterRule :=
  { r with priority := f r }

theorem should_include_path_priority_invariant (rules : List FilterRule)
    (f : FilterRule → Int) (path : String) (info : Option FileInfo) :
    filter_engine_should_include_path (rules.map (setRulePriority f)) path info =
      filter_engine_should_include_path rules path info := by
  induction rules with
  | nil => rfl
  | cons r rest ih =>
    cases hr : r.match_path <;>
      simp [filter_engine_should_include_path, setRulePriority, hr, ih]

theorem should_include_content_priority_invariant (rules : List FilterRule)
    (f : FilterRule → Int) (path content : String) :
    filter_engine_should_include_content (rules.map (setRulePriority f)) path content =
      filter_engine_should_include_content rules path content := by
  induction rules with
  | nil => rfl
  | cons r rest ih =>
    cases hr : r.match_content <;>
      simp [filter_engine_should_include_content, setRulePriority, hr, ih]

theorem transform_content_priority_invariant (rules : List FilterRule)
    (f : FilterRule → Int) (path data : String) :
    filter_engine_transform_content (rules.map (setRulePriority f)) path data =
      filter_engine_transform_content rules path data := by
  induction rules generalizing data with
  | nil => rfl
  | cons r rest ih =>
    simp only [List.map_cons, filter_engine_transform_content, setRulePriority]
    exact ih _

theorem transform_content_append (l₁ l₂ : List FilterRule) (path data : String) :
    filter_engine_transform_content (l₁ ++ l₂) path data =
      filter_engine_transform_content l₂ path
        (filter_engine_transform_content l₁ path data) := by
  induction l₁ generalizing data with
  | nil => rfl
  | cons r rest ih =>
    simp only [List.cons_append, filter_engine_transform_content]
    exact ih _

theorem transform_content_of_no_transform_rule (rules : List FilterRule)
    (h : ∀ r ∈ rules, r.type ≠ FILTER_TYPE_TRANSFORM) (path data : String) :
    filter_engine_transform_content rules path data = data := by
  induction rules with
  | nil => rfl
  | cons r rest ih =>
    have hr := h r (List.mem_cons_self r rest)
    simp only [filter_engine_transform_content, if_neg hr]
    exact ih (fun q hq => h q (List.mem_cons_of_mem r hq))

theorem add_output_file_exclusion_no_transform (env : FilterEnv)
    (config : ResolvedConfig) :
    ∀ r ∈ add_output_file_exclusion env config, r.type ≠ FILTER_TYPE_TRANSFORM := by
  intro r hr
  simp only [add_output_file_exclusion] at hr
  split at hr
  · simp only [List.mem_singleton] at hr
    subst hr
    exact fun h => FilterType.noConfusion h
  · exact absurd hr (List.not_mem_nil r)

/-! ## Claim theorems: filter and format engines -/

/-- C1.  The claim asserts that configuring the filter engine from a
ResolvedConfig with include pattern `*.c` and exclude pattern `test_*.c`
makes `filter_engine_should_include_path` exclude `test_main.c`, include
`main.c`, and exclude `readme.md` (Include requirement).  On the code,
`filter_engine_configure` never installs the include-pattern rule
(`filter_include_patterns_init` is dead code), so `readme.md` is
INCLUDED — the first two verdicts hold, the third does not.  Had the
source's own `filter_include_patterns_init_internal` been invoked, as the
fourth conjunct shows, `readme.md` would be excluded exactly as the spec
demands. -/
theorem C1_configure_drops_include_patterns :
    filter_engine_should_include_path (filter_engine_configure idFilterEnv c1Config)
      "test_main.c" (some plainFileInfo) = false ∧
    filter_engine_should_include_path (filter_engine_configure idFilterEnv c1Config)
      "main.c" (some plainFileInfo) = true ∧
    filter_engine_should_include_path (filter_engine_configure idFilterEnv c1Config)
      "readme.md" (some plainFileInfo) = true ∧
    filter_engine_should_include_path
      (filter_engine_configure idFilterEnv c1Config ++
        filter_include_patterns_init_internal c1Config)
      "readme.md" (some plainFileInfo) = false := by
  refine ⟨?_, ?_, ?_, ?_⟩ <;> decide

/-- C2.  The claim asserts that a run configured with output format name
"json" activates a JSON serializer out of the box.  On the code,
`format_engine_create` registers only the built-in text formatter, the
name lookup for "json" fails, and `format_engine_configure` falls back to
the first registered plugin: the TEXT formatter stays active.  The JSON
serializer exists in the source (format_json.c, plugin name "json") but
is never registered. -/
theorem C2_json_format_falls_back_to_text :
    ((format_engine_configure format_engine_create c2Config).active_formatter).map
      (fun p => p.name) = some "text" ∧
    format_engine_create.plugins.map (fun p => p.name) = ["text"] ∧
    format_engine_set_active_formatter_unlocked format_engine_create "json" = none ∧
    format_json_plugin.name = "json" := by
  refine ⟨rfl, rfl, rfl, rfl⟩

/-- C3.  The three decision operations of the filter engine evaluate the
registered rules strictly in registration order and never consult the
rules' priority fields: reassigning every priority arbitrarily changes no
decision, and two Transform rules are applied in registration order even
when their priorities are ordered the other way. -/
theorem C3_rules_evaluated_in_registration_order :
    (∀ (rules : List FilterRule) (f : FilterRule → Int) (path : String)
        (info : Option FileInfo),
      filter_engine_should_include_path (rules.map (setRulePriority f)) path info =
        filter_engine_should_include_path rules path info) ∧
    (∀ (rules : List FilterRule) (f : FilterRule → Int) (path content : String),
      filter_engine_should_include_content (rules.map (setRulePriority f)) path content =
        filter_engine_should_include_content rules path content) ∧
    (∀ (rules : List FilterRule) (f : FilterRule → Int) (path data : String),
      filter_engine_transform_content (rules.map (setRulePriority f)) path data =
        filter_engine_transform_content rules path data) ∧
    filter_engine_transform_content
      [appendTagRule "A" 10, appendTagRule "B" (-10)] "p" "x" = "xAB" ∧
    filter_engine_transform_content
      [appendTagRule "B" (-10), appendTagRule "A" 10] "p" "x" = "xBA" := by
  exact ⟨should_include_path_priority_invariant,
         should_include_content_priority_invariant,
         transform_content_priority_invariant, rfl, rfl⟩

/-- C10 counterexample.  With binary handling = placeholder AND symlink
handling = placeholder, `filter_engine_transform_content` does NOT return
the binary placeholder: the symlink Transform rule, registered after the
binary one and equally unconditional, overwrites the chunk again (here
readlink fails so the "target unreadable" placeholder results). -/
theorem C10_counterexample_symlink_placeholder_overwrites :
    filter_engine_transform_content (filter_engine_configure idFilterEnv c10Config)
      "f.txt" "hello" = "// [Symbolic link - target unreadable]\n" ∧
    ("// [Symbolic link - target unreadable]\n" ≠ binaryPlaceholder) := by
  exact ⟨by decide, by decide⟩

/-- C10 (amended).  When binary handling is placeholder and the symlink
policy is not also placeholder, `filter_engine_transform_content`
replaces every chunk of every file with the fixed binary placeholder
string, regardless of the chunk's bytes: the binary Transform rule's
transform ignores its input, its content matcher is never consulted by
the transform chain, and no later Transform rule exists. -/
theorem C10_placeholder_replaces_every_chunk (env : FilterEnv)
    (config : ResolvedConfig)
    (hb : config.binary_handling = BINARY_PLACEHOLDER)
    (hs : config.symlink_handling ≠ SYMLINK_PLACEHOLDER)
    (path chunk : String) :
    filter_engine_transform_content (filter_engine_configure env config)
      path chunk = binaryPlaceholder := by
  unfold filter_engine_configure
  rw [List.append_assoc, List.append_assoc, transform_content_append,
    transform_content_of_no_transform_rule _
      (add_output_file_exclusion_no_transform env config),
    transform_content_append]
  rw [transform_content_of_no_transform_rule
      (filter_exclude_patterns_init_internal config) ?hexc path chunk]
  case hexc =>
    unfold filter_exclude_patterns_init_internal
    split
    · intro r hr
      exact absurd hr (List.not_mem_nil r)
    · intro r hr
      simp only [List.mem_singleton] at hr
      subst hr
      exact fun h => FilterType.noConfusion h
  rw [transform_content_append]
  have hbin : filter_engine_transform_content
      (filter_binary_detection_init_internal config) path chunk = binaryPlaceholder := by
    unfold filter_binary_detection_init_internal
    rw [hb]
    simp [filter_engine_transform_content, binary_transform]
  rw [hbin]
  cases hsym : config.symlink_handling with
  | SYMLINK_PLACEHOLDER => exact absurd hsym hs
  | SYMLINK_FOLLOW => simp [filter_symlink_handling_init_internal, hsym,
      filter_engine_transform_content]
  | SYMLINK_INCLUDE => simp [filter_symlink_handling_init_internal, hsym,
      filter_engine_transform_content]
  | SYMLINK_SKIP =>
    simp [filter_symlink_handling_init_internal, hsym,
      filter_engine_transform_content]

/-- Witness for C10's amended theorem: binary placeholder with symlink
skip turns a concrete chunk into the binary placeholder. -/
theorem C10_placeholder_witness :
    c10SkipConfig.binary_handling = BINARY_PLACEHOLDER ∧
    c10SkipConfig.symlink_handling ≠ SYMLINK_PLACEHOLDER ∧
    filter_engine_transform_content (filter_engine_configure idFilterEnv c10SkipConfig)
      "a.bin" "x" = binaryPlaceholder :=
  ⟨rfl, by decide,
   C10_placeholder_replaces_every_chunk idFilterEnv c10SkipConfig rfl (by decide)
     "a.bin" "x"⟩

/-! ## Helper lemmas for the memory manager -/

theorem lookupPtr_updateBlock_self (p : Nat) (b : Block) (l : List (Nat × Block)) :
    lookupPtr p (updateBlock p b l) = (lookupPtr p l).map (fun _ => b) := by
  induction l with
  | nil => rfl
  | cons hd tl ih =>
    by_cases hq : hd.1 = p
    · simp [updateBlock, lookupPtr, hq]
    · simp [updateBlock, lookupPtr, hq, ih]

/-- C4.  A pointer fresh from `memory_alloc` that has been released once
carries the distinct freed magic in its header (stamped by the first free
before releasing); a second `memory_free` on it only logs the double-free
diagnostic: the heap, the statistics, and every other allocation are left
exactly as they were. -/
theorem C4_double_free_detected (g : MagicValues) (hmf : g.magic ≠ g.freed_magic)
    (s : MemState) (n : Nat) :
    lookupPtr (memory_alloc g s n).1 (memory_free g (memory_alloc g s n).2
        (memory_alloc g s n).1).blocks =
      some { header := { size := n, magic := g.freed_magic },
             tailCanary := g.canary, liveInLibc := false } ∧
    (memory_free g (memory_free g (memory_alloc g s n).2 (memory_alloc g s n).1)
        (memory_alloc g s n).1).blocks =
      (memory_free g (memory_alloc g s n).2 (memory_alloc g s n).1).blocks ∧
    (memory_free g (memory_free g (memory_alloc g s n).2 (memory_alloc g s n).1)
        (memory_alloc g s n).1).stats =
      (memory_free g (memory_alloc g s n).2 (memory_alloc g s n).1).stats ∧
    (memory_free g (memory_free g (memory_alloc g s n).2 (memory_alloc g s n).1)
        (memory_alloc g s n).1).log =
      MemEvent.free_double_free ::
        (memory_free g (memory_alloc g s n).2 (memory_alloc g s n).1).log := by
  have h₁ : lookupPtr s.nextPtr (memory_alloc g s n).2.blocks =
      some { header := { size := n, magic := g.magic },
             tailCanary := g.canary, liveInLibc := true } := by
    simp [memory_alloc, lookupPtr]
  have h₂ : memory_free g (memory_alloc g s n).2 (memory_alloc g s n).1 =
      { (memory_alloc g s n).2 with
        blocks := updateBlock s.nextPtr
          { header := { size := n, magic := g.freed_magic },
            tailCanary := g.canary, liveInLibc := false }
          (memory_alloc g s n).2.blocks,
        stats := if (memory_alloc g s n).2.track_allocations then
            { (memory_alloc g s n).2.stats with
              current_usage := (memory_alloc g s n).2.stats.current_usage - n,
              total_freed := (memory_alloc g s n).2.stats.total_freed + n,
              free_count := (memory_alloc g s n).2.stats.free_count + 1 }
          else (memory_alloc g s n).2.stats } := by
    show memory_free g (memory_alloc g s n).2 s.nextPtr = _
    rw [memory_free, h₁]
    simp [hmf, Ne.symm hmf]
  have h₃ : lookupPtr (memory_alloc g s n).1
      (memory_free g (memory_alloc g s n).2 (memory_alloc g s n).1).blocks =
      some { header := { size := n, magic := g.freed_magic },
             tailCanary := g.canary, liveInLibc := false } := by
    rw [h₂]
    show lookupPtr s.nextPtr _ = _
    rw [lookupPtr_updateBlock_self, h₁]
    rfl
  refine ⟨h₃, ?_, ?_, ?_⟩ <;>
    · rw [memory_free, h₃]
      simp

/-- Witness for C4 at a concrete magic triple, heap state and size. -/
theorem C4_double_free_witness :
    g0.magic ≠ g0.freed_magic ∧
    (memory_free g0 (memory_free g0 (memory_alloc g0 memEmpty 5).2
        (memory_alloc g0 memEmpty 5).1) (memory_alloc g0 memEmpty 5).1).log =
      MemEvent.free_double_free ::
        (memory_free g0 (memory_alloc g0 memEmpty 5).2
          (memory_alloc g0 memEmpty 5).1).log :=
  ⟨by decide, (C4_double_free_detected g0 (by decide) memEmpty 5).2.2.2⟩

/-! ## Helper lemmas for the buffer pool -/

theorem bestFitScan_spec (size : Nat) (slots : List (Nat × Bool)) :
    ∀ (i0 : Nat) (best : Option (Nat × Nat)) (j sz : Nat),
      bestFitScan size slots i0 best = some (j, sz) →
      best = some (j, sz) ∨
        ∃ k, slots.get? k = some (sz, false) ∧ j = i0 + k ∧ size ≤ sz := by
  induction slots with
  | nil =>
    intro i0 best j sz h
    exact Or.inl h
  | cons hd tl ih =>
    intro i0 best j sz h
    obtain ⟨szh, used⟩ := hd
    simp only [bestFitScan] at h
    rcases ih (i0 + 1) _ j sz h with hbest | ⟨k, hk, hj, hsz⟩
    · split at hbest
      case isTrue hq =>
        have hji : i0 = j ∧ szh = sz := by
          constructor <;> [exact congrArg (·.1) (Option.some.inj hbest);
                          exact congrArg (·.2) (Option.some.inj hbest)]
        obtain ⟨hji, hszi⟩ := hji
        have hused : used = false := by
          rcases Bool.and_eq_true_iff.mp hq with ⟨h1, _⟩
          rcases Bool.and_eq_true_iff.mp h1 with ⟨h2, _⟩
          simpa using h2
        have hle : size ≤ szh := by
          rcases Bool.and_eq_true_iff.mp hq with ⟨h1, _⟩
          rcases Bool.and_eq_true_iff.mp h1 with ⟨_, h3⟩
          simpa using h3
        subst hji hszi hused
        exact Or.inr ⟨0, by simp, by omega, hle⟩
      case isFalse => exact Or.inl hbest
    · exact Or.inr ⟨k + 1, by simpa using hk, by omega, hsz⟩

theorem setSlotInUse_roundtrip (slots : List (Nat × Bool)) (i sz : Nat)
    (h : slots.get? i = some (sz, false)) :
    setSlotInUse (setSlotInUse slots i true) i false = slots := by
  induction slots generalizing i with
  | nil => simp [List.get?] at h
  | cons hd tl ih =>
    cases i with
    | zero =>
      obtain rfl : hd = (sz, false) := by simpa [List.get?] using h
      simp [setSlotInUse, List.get?, List.set]
    | succ n =>
      have hh : tl.get? n = some (sz, false) := h
      have ihx := ih n hh
      simp only [setSlotInUse, List.get?, hh, List.set] at ihx ⊢
      cases hg : (tl.set n (sz, true)).get? n with
      | none =>
        rw [hg] at ihx
        simp only [List.set]
        exact congrArg (hd :: ·) ihx
      | some p =>
        rw [hg] at ihx
        obtain ⟨a, u⟩ := p
        simp only [List.set]
        exact congrArg (hd :: ·) ihx

/-- C5 (amended).  Whenever `buffer_pool_get` serves the request from a
pool tier (the best-fit scan finds a free tier buffer ≥ the requested
size), releasing that buffer and immediately repeating the same request
returns the identical pointer and leaves the pool in the identical
state. -/
theorem C5_pool_roundtrip (s : PoolState) (n : Nat) (i : Nat) (s' : PoolState)
    (h : buffer_pool_get s n = (BufPtr.pool i, s')) :
    buffer_pool_get (buffer_pool_release s' (BufPtr.pool i)) n =
      (BufPtr.pool i, s') := by
  unfold buffer_pool_get at h
  cases hbf : bestFitScan n s.pool.slots 0 none with
  | none =>
    rw [hbf] at h
    exact absurd (congrArg Prod.fst h) (by simp)
  | some jsz =>
    obtain ⟨j, sz⟩ := jsz
    rw [hbf] at h
    have hj : BufPtr.pool j = BufPtr.pool i := congrArg Prod.fst h
    have hs' : ({ s with pool := { slots := setSlotInUse s.pool.slots j true } }
        : PoolState) = s' := congrArg Prod.snd h
    obtain rfl : j = i := BufPtr.pool.inj hj
    rcases bestFitScan_spec n s.pool.slots 0 none j sz hbf with habs | ⟨k, hk, hjk, _⟩
    · exact absurd habs (by simp)
    · have hk0 : s.pool.slots.get? j = some (sz, false) := by
        rw [hjk, Nat.zero_add]
        exact hk
      have hrel : buffer_pool_release s' (BufPtr.pool j) = s := by
        rw [← hs']
        simp only [buffer_pool_release]
        rw [setSlotInUse_roundtrip s.pool.slots j sz hk0]
      rw [hrel]
      unfold buffer_pool_get
      rw [hbf]
      exact h

/-- C5 counterexample.  The claim quantifies over every requested size;
for a size no tier can hold (65537 > the largest 64 KiB tier) the code
falls back to a fresh heap allocation, and the repeated request yields a
different pointer: `release(get(65537)); get(65537)` is not the identity
it claims to be. -/
theorem C5_heap_fallback_not_identical :
    (buffer_pool_get initialPoolState 65537).1 = BufPtr.heap 0 ∧
    (buffer_pool_get
      (buffer_pool_release (buffer_pool_get initialPoolState 65537).2
        (buffer_pool_get initialPoolState 65537).1) 65537).1 = BufPtr.heap 1 ∧
    BufPtr.heap 1 ≠ BufPtr.heap 0 := by
  refine ⟨by decide, by decide, by decide⟩

/-- Witness for C5's amended theorem: a 100-byte request is served by the
first small tier slot and the round trip reproduces it. -/
theorem C5_pool_roundtrip_witness :
    buffer_pool_get initialPoolState 100 =
      (BufPtr.pool 0, (buffer_pool_get initialPoolState 100).2) ∧
    buffer_pool_get
        (buffer_pool_release (buffer_pool_get initialPoolState 100).2 (BufPtr.pool 0))
        100 =
      (BufPtr.pool 0, (buffer_pool_get initialPoolState 100).2) :=
  ⟨by decide,
   C5_pool_roundtrip initialPoolState 100 0 (buffer_pool_get initialPoolState 100).2
     (by decide)⟩

/-- C6.  `memory_realloc` with a null pointer is `memory_alloc`; with
size 0 it is `memory_free` and returns no pointer; for a tracked pointer
it re-validates the header magic and the tail canary before resizing —
refusing (and leaving the heap untouched) when either fails — and on
success re-stamps a fresh tail canary at the new end of the payload. -/
theorem C6_realloc_contract (g : MagicValues) (s : MemState) (p : Nat)
    (b : Block) (n : Nat) (hb : lookupPtr p s.blocks = some b) :
    (memory_realloc g s none n =
      (some (memory_alloc g s n).1, (memory_alloc g s n).2)) ∧
    (memory_realloc g s (some p) 0 = (none, memory_free g s p)) ∧
    (b.header.magic = g.magic → b.tailCanary = g.canary → n ≠ 0 →
      (memory_realloc g s (some p) n).1 = some p ∧
      lookupPtr p (memory_realloc g s (some p) n).2.blocks =
        some { header := { size := n, magic := g.magic },
               tailCanary := g.canary, liveInLibc := b.liveInLibc }) ∧
    (b.header.magic ≠ g.magic → n ≠ 0 →
      memory_realloc g s (some p) n =
        (none, { s with log := MemEvent.realloc_header_corruption :: s.log })) ∧
    (b.header.magic = g.magic → b.tailCanary ≠ g.canary → n ≠ 0 →
      memory_realloc g s (some p) n =
        (none, { s with log := MemEvent.realloc_canary_overflow :: s.log })) := by
  refine ⟨rfl, rfl, ?_, ?_, ?_⟩
  · intro hm hc hn
    simp only [memory_realloc]
    rw [if_neg hn]
    simp only [hb]
    rw [if_neg (not_not_intro hm), if_neg (not_not_intro hc)]
    refine ⟨rfl, ?_⟩
    rw [lookupPtr_updateBlock_self, hb]
    rfl
  · intro hm hn
    simp only [memory_realloc]
    rw [if_neg hn]
    simp only [hb]
    rw [if_pos hm]
  · intro hm hc hn
    simp only [memory_realloc]
    rw [if_neg hn]
    simp only [hb]
    rw [if_neg (not_not_intro hm), if_pos hc]

/-- Witness for C6 over a concrete one-block heap. -/
theorem C6_realloc_witness :
    lookupPtr 0 (memory_alloc g0 memEmpty 5).2.blocks =
      some { header := { size := 5, magic := g0.magic },
             tailCanary := g0.canary, liveInLibc := true } ∧
    (memory_realloc g0 (memory_alloc g0 memEmpty 5).2 (some 0) 9).1 = some 0 ∧
    lookupPtr 0 (memory_realloc g0 (memory_alloc g0 memEmpty 5).2 (some 0) 9).2.blocks =
      some { header := { size := 9, magic := g0.magic },
             tailCanary := g0.canary, liveInLibc := true } :=
  ⟨by decide,
   ((C6_realloc_contract g0 (memory_alloc g0 memEmpty 5).2 0
       { header := { size := 5, magic := g0.magic },
         tailCanary := g0.canary, liveInLibc := true } 9
       (by decide)).2.2.1 (by decide) (by decide) (by decide)).1,
   ((C6_realloc_contract g0 (memory_alloc g0 memEmpty 5).2 0
       { header := { size := 5, magic := g0.magic },
         tailCanary := g0.canary, liveInLibc := true } 9
       (by decide)).2.2.1 (by decide) (by decide) (by decide)).2⟩

/-! ## Trace predicates and step lemmas for the traversal -/

set_option maxHeartbeats 1600000 in
theorem step_depthOk (env : TraversalEnv) (s : TState)
    (h : s.events.all evDepthOk = true) :
    (stepState (step env s)).events.all evDepthOk = true := by
  unfold step
  repeat' split
  all_goals simp_all [stepState, evDepthOk, List.all_cons, MAX_DIRECTORY_DEPTH]
  all_goals (repeat' split)
  all_goals (try simp_all [stepState, evDepthOk, List.all_cons, MAX_DIRECTORY_DEPTH])
  all_goals (first
    | omega
    | (rename_i heq
       repeat' (split at heq)
       all_goals (try injection heq)
       all_goals (try subst_vars)
       all_goals (try simp_all [stepState, evDepthOk, List.all_cons, MAX_DIRECTORY_DEPTH])
       all_goals (try omega)))

theorem runT_depthOk (env : TraversalEnv) :
    ∀ (fuel : Nat) (s : TState), s.events.all evDepthOk = true →
      ∀ r tr, runT env fuel s = some (r, tr) → tr.events.all evDepthOk = true := by
  intro fuel
  induction fuel with
  | zero =>
    intro s h r tr hrun
    exact absurd hrun (by simp [runT])
  | succ n ih =>
    intro s h r tr hrun
    unfold runT at hrun
    cases hstep : step env s with
    | running s' =>
      rw [hstep] at hrun
      have hd := step_depthOk env s h
      rw [hstep] at hd
      exact ih s' hd r tr hrun
    | done code s' =>
      rw [hstep] at hrun
      have heq := Option.some.inj hrun
      have hd := step_depthOk env s h
      rw [hstep] at hd
      cases heq
      exact hd

/-- C8.  In every completed traversal no callback is ever invoked for an
entry of a frame at depth MAX_DIRECTORY_DEPTH = 256 and no frame is ever
pushed beyond depth 256 (so such a frame's entries are never emitted or
descended into); concretely, a chain whose deepest frame reaches the cap
completes with exit code 0, emits the warning naming the capped depth
(256), and invokes the callback only for the five directories above the
cap, not for the file behind it. -/
theorem C8_depth_cap :
    (∀ (env : TraversalEnv) (base rel : String) (level rootd rooti fuel : Nat)
        (r : Int) (tr : TState),
      traverse_directory env base rel level rootd rooti fuel = some (r, tr) →
      tr.events.all evDepthOk = true) ∧
    c8ConcreteCheck = true := by
  refine ⟨?_, by decide⟩
  intro env base rel level rootd rooti fuel r tr hrun
  exact runT_depthOk env fuel (initTState env base rel level rootd rooti)
    (by rfl) r tr hrun

/-- Witness for C8: the depth-cap scenario run itself satisfies the
universal event bound. -/
theorem C8_depth_cap_witness :
    traverse_directory capEnv "/r" "" 251 0 0 40 = some (capFinal.1, capFinal.2) ∧
    capFinal.2.events.all evDepthOk = true :=
  ⟨by decide,
   C8_depth_cap.1 capEnv "/r" "" 251 0 0 40 capFinal.1 capFinal.2 (by decide)⟩

set_option maxHeartbeats 1600000 in
theorem step_cbZero (env : TraversalEnv) (s : TState)
    (h : s.events.all cbResultZero = true) :
    (∀ s', step env s = StepRes.running s' → s'.events.all cbResultZero = true) ∧
    (∀ code s', step env s = StepRes.done code s' →
      (code = 0 ∧ s'.events.all cbResultZero = true) ∨
      (∃ p t lvl rest, s'.events = TraceEv.cb p t lvl code :: rest ∧
        rest.all cbResultZero = true ∧ code ≠ 0)) := by
  constructor
  · intro s' hs'
    unfold step at hs'
    repeat' (split at hs')
    all_goals (try injection hs')
    all_goals (try subst_vars)
    all_goals (try simp_all [cbResultZero, List.all_cons])
    all_goals (repeat' (split at hs'))
    all_goals (try injection hs')
    all_goals (try subst_vars)
    all_goals (try simp_all [cbResultZero, List.all_cons])
  · intro code s' hs'
    unfold step at hs'
    all_goals (try (simp only [] at hs'))
    repeat' (split at hs')
    all_goals (try injection hs' with hc hs2)
    all_goals (try subst_vars)
    all_goals (try (simp only [] at hs'))
    all_goals (repeat' (split at hs'))
    all_goals (try injection hs' with hc hs2)
    all_goals (try subst_vars)
    all_goals (try (exact StepRes.noConfusion hs'))
    all_goals (try (exact Or.inl ⟨rfl, by simp_all⟩))
    all_goals
      (refine Or.inr ⟨_, _, _, _, rfl, ?_, ?_⟩ <;>
        simp_all [cbResultZero, List.all_cons])

theorem runT_cbZero (env : TraversalEnv) :
    ∀ (fuel : Nat) (s : TState), s.events.all cbResultZero = true →
      ∀ r tr, runT env fuel s = some (r, tr) →
        (r = 0 ∧ tr.events.all cbResultZero = true) ∨
        (∃ p t lvl rest, tr.events = TraceEv.cb p t lvl r :: rest ∧
          rest.all cbResultZero = true ∧ r ≠ 0) := by
  intro fuel
  induction fuel with
  | zero =>
    intro s h r tr hrun
    exact absurd hrun (by simp [runT])
  | succ n ih =>
    intro s h r tr hrun
    unfold runT at hrun
    cases hstep : step env s with
    | running s' =>
      rw [hstep] at hrun
      exact ih s' ((step_cbZero env s h).1 s' hstep) r tr hrun
    | done code s' =>
      rw [hstep] at hrun
      have heq := Option.some.inj hrun
      cases heq
      exact (step_cbZero env s h).2 r tr hstep

/-- C9.  Every completed traversal either returns 0 with every callback
invocation having returned 0 (per-entry stat/open failures are warnings
that never surface in the result), or returns exactly the first non-zero
callback code, with that callback invocation being the traversal's last
recorded action (abort is immediate).  Concretely, a tree with a
stat-failing entry and an unopenable directory still completes with 0
while warning about both, and a callback returning 7 on `a.txt` makes the
traversal return 7 at once. -/
theorem C9_callback_code_propagates :
    (∀ (env : TraversalEnv) (base rel : String) (level rootd rooti fuel : Nat)
        (r : Int) (tr : TState),
      traverse_directory env base rel level rootd rooti fuel = some (r, tr) →
      (r = 0 ∧ tr.events.all cbResultZero = true) ∨
      (∃ p t lvl rest, tr.events = TraceEv.cb p t lvl r :: rest ∧
        rest.all cbResultZero = true ∧ r ≠ 0)) ∧
    c9ConcreteCheck = true := by
  refine ⟨?_, by decide⟩
  intro env base rel level rootd rooti fuel r tr hrun
  exact runT_cbZero env fuel (initTState env base rel level rootd rooti)
    (by rfl) r tr hrun

/-- Witness for C9 at the aborting scenario. -/
theorem C9_callback_code_witness :
    traverse_directory c9AbortEnv "/r" "" 0 0 0 20 = some (c9Final.1, c9Final.2) ∧
    ((c9Final.1 = 0 ∧ c9Final.2.events.all cbResultZero = true) ∨
      (∃ p t lvl rest, c9Final.2.events = TraceEv.cb p t lvl c9Final.1 :: rest ∧
        rest.all cbResultZero = true ∧ c9Final.1 ≠ 0)) :=
  ⟨by decide,
   C9_callback_code_propagates.1 c9AbortEnv "/r" "" 0 0 0 20 c9Final.1 c9Final.2
     (by decide)⟩

set_option maxHeartbeats 1600000 in
theorem step_aligned (env : TraversalEnv) (s : TState)
    (h : noStackFull s.events = true → visitedAligned s ∧ s.visited.Nodup) :
    (∀ s', step env s = StepRes.running s' →
      noStackFull s'.events = true → visitedAligned s' ∧ s'.visited.Nodup) ∧
    (∀ code s', step env s = StepRes.done code s' →
      noStackFull s'.events = true → visitedAligned s' ∧ s'.visited.Nodup) := by
  constructor
  · intro s' hs'
    unfold step at hs'
    all_goals (try (simp only [] at hs'))
    repeat' (split at hs')
    all_goals (try injection hs')
    all_goals (try subst_vars)
    all_goals (try (simp only [] at hs'))
    all_goals (repeat' (split at hs'))
    all_goals (try injection hs')
    all_goals (try subst_vars)
    all_goals (try (exact StepRes.noConfusion hs'))
    all_goals intro hn
    all_goals
      (try (simp_all [noStackFull, isStackFullWarn, visitedAligned, pairOf,
        visited_set_pop, visited_set_add, visited_set_contains,
        List.all_cons, List.map_cons]))
    all_goals
      (simp only [MAX_VISITED_DIRS, DIR_STACK_INITIAL_CAPACITY] at *
       refine ⟨by omega, ?_⟩
       rw [if_neg (by omega)]
       simp_all [List.nodup_cons, List.mem_cons, List.mem_map, pairOf,
         Prod.mk.injEq])
  · intro code s' hs'
    unfold step at hs'
    all_goals (try (simp only [] at hs'))
    repeat' (split at hs')
    all_goals (try injection hs')
    all_goals (try subst_vars)
    all_goals (try (simp only [] at hs'))
    all_goals (repeat' (split at hs'))
    all_goals (try injection hs')
    all_goals (try subst_vars)
    all_goals (try (exact StepRes.noConfusion hs'))
    all_goals intro hn
    all_goals
      (simp_all [noStackFull, isStackFullWarn, visitedAligned, pairOf,
        visited_set_pop, visited_set_add, visited_set_contains,
        List.all_cons, List.map_cons])

theorem stateAt_aligned (env : TraversalEnv) :
    ∀ (n : Nat) (s : TState),
      (noStackFull s.events = true → visitedAligned s ∧ s.visited.Nodup) →
      noStackFull (stateAt env n s).events = true →
      visitedAligned (stateAt env n s) ∧ (stateAt env n s).visited.Nodup := by
  intro n
  induction n with
  | zero =>
    intro s h hn
    exact h hn
  | succ k ih =>
    intro s h hn
    unfold stateAt at hn ⊢
    cases hstep : step env s with
    | running s' =>
      rw [hstep] at hn
      exact ih s' ((step_aligned env s h).1 s' hstep) hn
    | done c s' =>
      rw [hstep] at hn
      exact (step_aligned env s h).2 c s' hstep hn

theorem initTState_aligned (env : TraversalEnv) (base rel : String)
    (level rootd rooti : Nat) :
    noStackFull (initTState env base rel level rootd rooti).events = true →
    visitedAligned (initTState env base rel level rootd rooti) ∧
      (initTState env base rel level rootd rooti).visited.Nodup := by
  intro _
  constructor
  · simp [initTState, visitedAligned, visited_set_add, pairOf, MAX_VISITED_DIRS]
  · simp [initTState, visited_set_add, MAX_VISITED_DIRS]

set_option maxRecDepth 100000 in
set_option maxHeartbeats 4000000 in
/-- C7 counterexample.  After 258 steps of the deep-chain traversal two
currently open frames carry the same `(device, inode)` pair: the claimed
at-most-once invariant fails once the 256-entry stack and visited set
overflow (the failed push's `visited_set_pop` removes another frame's
pair, and a later cycle check misses).  -/
theorem C7_counterexample_pair_reappears_while_open :
    ¬ ((stateAt deepEnv 258 deepInit).stack.map pairOf).Nodup := by decide

/-- C7 (amended).  As long as the traversal never hits the 256-frame
directory-stack capacity (no "Directory stack full" warning has been
emitted), the visited set holds exactly the `(dev, ino)` pairs of the
currently open frames — added when a frame is pushed, removed when it is
popped — and those pairs are pairwise distinct, so a pair occurs at most
once among open ancestors and may legally reappear once popped.
Concretely, a self-referential symlink cycle terminates with a
circular-symlink warning, and a hard-linked pair of siblings is entered
twice (the pair reappears after the first frame pops). -/
theorem C7_visited_pairs_distinct :
    (∀ (env : TraversalEnv) (base rel : String) (level rootd rooti n : Nat),
      noStackFull (stateAt env n (initTState env base rel level rootd rooti)).events
          = true →
      ((stateAt env n (initTState env base rel level rootd rooti)).stack.map
          pairOf).Nodup ∧
      (stateAt env n (initTState env base rel level rootd rooti)).visited =
        (stateAt env n (initTState env base rel level rootd rooti)).stack.map
          pairOf) ∧
    c7CycleCheck = true ∧ c7HardlinkCheck = true := by
  refine ⟨?_, by decide, by decide⟩
  intro env base rel level rootd rooti n hn
  have h := stateAt_aligned env n (initTState env base rel level rootd rooti)
    (initTState_aligned env base rel level rootd rooti) hn
  exact ⟨h.1 ▸ h.2, h.1⟩

/-- Witness for C7's amended theorem at the cyclic-symlink scenario. -/
theorem C7_visited_pairs_witness :
    noStackFull (stateAt cycEnv 10 (initTState cycEnv "/r" "" 0 1 1)).events = true ∧
    ((stateAt cycEnv 10 (initTState cycEnv "/r" "" 0 1 1)).stack.map pairOf).Nodup :=
  ⟨by decide,
   (C7_visited_pairs_distinct.1 cycEnv "/r" "" 0 1 1 10 (by decide)).1⟩

end Fconcat
